import Mathlib

/-
Verification of the wags-tails versioned-asset cache engine.

The Python sources under src/wags_tails are embedded shallowly: filenames are
Lean Strings, directory contents are lists of filenames, remote responses are
explicit data (a parsed JSON release list, HTML lines, a JSON version field),
and every side effect performed by a call (local scans, network requests,
downloads, log records) is reported in an explicit Trace value returned next
to the Except-typed outcome.  Python exceptions become constructors of PyError.

Helpers that live in modules absent from src/ (base_source.py, the download
and versioning utilities) are modelled from the specification; each such
definition carries a doc comment beginning "Modelled from the spec:".
-/

/-- Exception kinds raised by the embedded code.  valueError, fileNotFoundError
and remoteDataError correspond to the Python exceptions appearing in src/;
processingError and parseError are the distinct kinds named by the spec's
error taxonomy (section 7), carried here so spec and code can be compared. -/
inductive PyError
  | valueError
  | fileNotFoundError
  | remoteDataError
  | processingError
  | parseError
  deriving DecidableEq, Repr

/-- Observable side effects of one embedded call: number of local directory
scans, number of network requests, destination paths written by downloads,
and counts of warning-level and error-level log records. -/
structure Trace where
  localScans : Nat := 0
  networkCalls : Nat := 0
  downloads : List String := []
  warnings : Nat := 0
  errorsLogged : Nat := 0
  deriving DecidableEq, Repr

/-- Boolean test that the first list is an initial segment of the second. -/
def hasPre : List Char → List Char → Bool
  | [], _ => true
  | _ :: _, [] => false
  | p :: ps, c :: cs => p = c && hasPre ps cs

/-- Boolean test that the first list is a final segment of the second. -/
def hasSuf (suf cs : List Char) : Bool :=
  hasPre suf.reverse cs.reverse

/-- Matching a shell glob of the shape pre*suf against a filename, as used by
Path.glob in the sources: the star may match the empty string but the prefix
and suffix occupy disjoint parts of the name. -/
def globMatch (pre suf : String) (name : String) : Bool :=
  hasPre pre.data name.data && hasSuf suf.data name.data &&
    decide (pre.data.length + suf.data.length ≤ name.data.length)

/-- The characters strictly between a prefix of the given length and a suffix
of the given length. -/
def stripPreSuf (pre suf name : List Char) : List Char :=
  (name.drop pre.length).take (name.length - pre.length - suf.length)

/-- Decimal value of a digit list (most significant first). -/
def charsToNat (cs : List Char) : Nat :=
  cs.foldl (fun acc c => acc * 10 + (c.toNat - 48)) 0

/-- Python int() on a string: succeeds exactly on a nonempty all-digit string. -/
def digitsToNat? (cs : List Char) : Option Nat :=
  if cs ≠ [] && cs.all Char.isDigit then some (charsToNat cs) else none

/-- Split a character list on the given separator, keeping empty groups,
matching Python str.split(sep). -/
def splitOnChar (sep : Char) : List Char → List (List Char)
  | [] => [[]]
  | c :: cs =>
    let r := splitOnChar sep cs
    if c = sep then [] :: r
    else
      match r with
      | [] => [[c]]
      | h :: t => (c :: h) :: t

/-- Python "version.split('.')" followed by int() on every component, as in
DrugBankData._get_latest_local_file; fails if any component is not a
nonempty digit string. -/
def parseDottedAux : List (List Char) → Option (List Nat)
  | [] => some []
  | g :: gs =>
    match digitsToNat? g, parseDottedAux gs with
    | some n, some ns => some (n :: ns)
    | _, _ => none

/-- Parse a dotted numeric version string into its integer components. -/
def parseDotted (cs : List Char) : Option (List Nat) :=
  parseDottedAux (splitOnChar '.' cs)

/-- Python comparison of lists of integers: lexicographic, with a strict
prefix comparing less than the longer list. -/
def pyListLt : List Nat → List Nat → Bool
  | [], [] => false
  | [], _ :: _ => true
  | _ :: _, [] => false
  | a :: as, b :: bs =>
    if a < b then true else if b < a then false else pyListLt as bs

/-- The element whose key is maximal under pyListLt, ties resolved to the
last occurrence: exactly the element sorted(xs, key)[-1] yields under
Python's stable sort. -/
def pickLatestBy {α : Type} (key : α → List Nat) (ps : List α) : Option α :=
  ps.foldl
    (fun acc p =>
      match acc with
      | none => some p
      | some q => if pyListLt (key p) (key q) then some q else some p)
    none

/-- Glob drugbank_*.csv used by DrugBankData.get_latest. -/
def drugbankGlob (name : String) : Bool :=
  globMatch "drugbank_" ".csv" name

/-- Modelled from the spec: parse_file_version (utils/versioning.py, absent
from src/) extracts the version captured by a pattern from a file name and
fails when the name does not match.  For the DrugBank pattern
drugbank_([0-9.]+).csv the capture is the digits-and-dots run between the
drugbank_ prefix and the .csv suffix. -/
def parseDrugbankVersion (name : String) : Option String :=
  if drugbankGlob name then
    let mid := stripPreSuf "drugbank_".data ".csv".data name.data
    if mid ≠ [] && mid.all (fun c => c.isDigit || c = '.') then
      some (String.mk mid)
    else none
  else none

/-- The (file, version, integer key) triples accumulated by the loop in
DrugBankData._get_latest_local_file; a file whose name fails version
parsing raises (parseError), and a component int() failure raises
(valueError), aborting the whole scan as in the source. -/
def collectDrugbankPairs : List String → Except PyError (List (String × String × List Nat))
  | [] => .ok []
  | f :: fs =>
    match parseDrugbankVersion f with
    | none => .error .parseError
    | some v =>
      match parseDotted v.data with
      | none => .error .valueError
      | some key => (collectDrugbankPairs fs).map (fun rest => (f, v, key) :: rest)

/-- DrugBankData._get_latest_local_file: glob drugbank_*.csv over the data
directory, parse each version, sort by the integer component lists, raise
FileNotFoundError when empty, else return the maximal file and version. -/
def DrugBankData.getLatestLocalFile (files : List String) :
    Except PyError (String × String) := do
  let pairs ← collectDrugbankPairs (files.filter drugbankGlob)
  match pickLatestBy (fun p => p.2.2) pairs with
  | none => .error .fileNotFoundError
  | some (f, v, _) => .ok (f, v)

/-- One entry of the parsed releases.json array: the version and url keys,
each possibly absent. -/
structure DBRelease where
  version : Option String
  url : Option String
  deriving DecidableEq, Repr

/-- DrugBankData._get_latest_version over the parsed releases.json body:
index 0 of an empty array (IndexError) or a missing version or url key
(KeyError) is caught and re-raised as RemoteDataError. -/
def DrugBankData.getLatestVersion (releases : List DBRelease) :
    Except PyError (String × String) :=
  match releases with
  | [] => .error .remoteDataError
  | rel :: _ =>
    match rel.version, rel.url with
    | some v, some u => .ok (v, u)
    | _, _ => .error .remoteDataError

/-- DrugBankData.get_latest: arguments are the data directory contents, the
parsed releases.json body, and the two policy flags. -/
def DrugBankData.get_latest (files : List String) (releases : List DBRelease)
    (from_local force_refresh : Bool) :
    Except PyError (String × String) × Trace :=
  if force_refresh && from_local then
    (.error .valueError, {})
  else if from_local then
    match DrugBankData.getLatestLocalFile files with
    | .error e => (.error e, { localScans := 1 })
    | .ok (f, v) => (.ok (f, v), { localScans := 1 })
  else
    match DrugBankData.getLatestVersion releases with
    | .error e => (.error e, { networkCalls := 1 })
    | .ok (v, _u) =>
      let latestFile := "drugbank_" ++ v ++ ".csv"
      if !force_refresh && files.contains latestFile then
        (.ok (latestFile, v), { networkCalls := 1 })
      else
        (.ok (latestFile, v),
         { networkCalls := 2, downloads := [latestFile] })

/-- Container for GuideToPharmacology file paths (the GtoPLigandPaths
NamedTuple). -/
structure GtoPLigandPaths where
  ligands : String
  ligand_id_mapping : String
  deriving DecidableEq, Repr

/-- Glob gtop_ligands_*.tsv. -/
def gtopLigandsGlob (name : String) : Bool :=
  globMatch "gtop_ligands_" ".tsv" name

/-- Glob gtop_ligand_id_mapping_*.tsv. -/
def gtopMappingGlob (name : String) : Bool :=
  globMatch "gtop_ligand_id_mapping_" ".tsv" name

/-- Modelled from the spec: DataSource._get_latest_local_file (base_source.py,
absent from src/) is the LocalCacheScanner: enumerate files matching the glob,
parse the embedded dotted-numeric version, skip candidates that do not parse,
and return the file with the greatest version under component-wise integer
comparison; fail with FileNotFoundError when no candidate qualifies. -/
def localLatestFile (files : List String) (pre suf : String) :
    Except PyError String :=
  let cands := files.filterMap fun f =>
    if globMatch pre suf f then
      (parseDotted (stripPreSuf pre.data suf.data f.data)).map fun key => (f, key)
    else none
  match pickLatestBy (fun p => p.2) cands with
  | none => .error .fileNotFoundError
  | some (f, _) => .ok f

/-- Modelled from the spec: parse_file_version (version_utils.py, absent from
src/) applied to the GuideToPharmacology pattern
gtop_ligands_([0-9]\x7b4\x7d[.][0-9]+).tsv: the capture between the prefix
and the .tsv suffix is four digits, a dot, and one or more digits. -/
def parseGtopLigandsVersion (name : String) : Option String :=
  if gtopLigandsGlob name then
    let mid := stripPreSuf "gtop_ligands_".data ".tsv".data name.data
    match mid with
    | a :: b :: c :: d :: dot :: rest =>
      if a.isDigit && b.isDigit && c.isDigit && d.isDigit && dot = '.' &&
          !rest.isEmpty && rest.all Char.isDigit then
        some (String.mk mid)
      else none
    | _ => none
  else none

/-- The literal the GuideToPharmacology homepage regex starts with. -/
def crvLit : List Char := "Current Release Version ".data

/-- Strip an expected literal from the front of a character list. -/
def dropLit : List Char → List Char → Option (List Char)
  | [], cs => some cs
  | _ :: _, [] => none
  | p :: ps, c :: cs => if p = c then dropLit ps cs else none

/-- Attempt the regex "Current Release Version ([0-9]\x7b4\x7d[.][0-9]) [(].*[)]"
at the head of a character list, returning the captured version. -/
def matchGtopAt (cs : List Char) : Option String :=
  match dropLit crvLit cs with
  | none => none
  | some rest =>
    match rest with
    | a :: b :: c :: d :: dot :: e :: sp :: par :: tail =>
      if a.isDigit && b.isDigit && c.isDigit && d.isDigit && dot = '.' &&
          e.isDigit && sp = ' ' && par = '(' && tail.contains ')' then
        some (String.mk [a, b, c, d, dot, e])
      else none
    | _ => none

/-- Leftmost match of the homepage version regex within one line. -/
def findGtopInLine : List Char → Option String
  | [] => none
  | c :: cs =>
    match matchGtopAt (c :: cs) with
    | some v => some v
    | none => findGtopInLine cs

/-- Whitespace for Python str.strip(). -/
def isSpaceChar (c : Char) : Bool :=
  c = ' ' || c = '\t' || c = '\n' || c = '\r' || c = '\x0b' || c = '\x0c'

/-- Python str.strip(): remove leading and trailing whitespace. -/
def trimChars (cs : List Char) : List Char :=
  ((cs.dropWhile isSpaceChar).reverse.dropWhile isSpaceChar).reverse

/-- GToPLigandData._get_latest_version over the homepage HTML split into
lines: the first line matching the release-version regex yields the capture;
if no line matches, RemoteDataError is raised. -/
def GToPLigandData.getLatestVersion (lines : List String) :
    Except PyError String :=
  match lines.findSome? (fun line => findGtopInLine (trimChars line.data)) with
  | some v => .ok v
  | none => .error .remoteDataError

/-- GToPLigandData.get_latest: arguments are the data directory contents, the
homepage HTML lines, and the two policy flags. -/
def GToPLigandData.get_latest (files : List String) (remoteLines : List String)
    (from_local force_refresh : Bool) :
    Except PyError (GtoPLigandPaths × String) × Trace :=
  if force_refresh && from_local then
    (.error .valueError, {})
  else if from_local then
    match localLatestFile files "gtop_ligands_" ".tsv" with
    | .error e => (.error e, { localScans := 1 })
    | .ok lp =>
      match localLatestFile files "gtop_ligand_id_mapping_" ".tsv" with
      | .error e => (.error e, { localScans := 2 })
      | .ok mp =>
        match parseGtopLigandsVersion lp with
        | none => (.error .parseError, { localScans := 2 })
        | some v => (.ok (⟨lp, mp⟩, v), { localScans := 2 })
  else
    match GToPLigandData.getLatestVersion remoteLines with
    | .error e => (.error e, { networkCalls := 1 })
    | .ok v =>
      let lp := "gtop_ligands_" ++ v ++ ".tsv"
      let mp := "gtop_ligand_id_mapping_" ++ v ++ ".tsv"
      if !force_refresh && (files.contains lp && files.contains mp) then
        (.ok (⟨lp, mp⟩, v), { networkCalls := 1 })
      else if !force_refresh && (files.contains lp || files.contains mp) then
        (.ok (⟨lp, mp⟩, v),
         { networkCalls := 3, downloads := [lp, mp], warnings := 1 })
      else
        (.ok (⟨lp, mp⟩, v), { networkCalls := 3, downloads := [lp, mp] })

/-- Month number of an English three-letter month abbreviation, matched
case-insensitively as Python strptime %b does. -/
def monthAbbrevNum (cs : List Char) : Option Nat :=
  let l := cs.map Char.toLower
  if l = "jan".data then some 1
  else if l = "feb".data then some 2
  else if l = "mar".data then some 3
  else if l = "apr".data then some 4
  else if l = "may".data then some 5
  else if l = "jun".data then some 6
  else if l = "jul".data then some 7
  else if l = "aug".data then some 8
  else if l = "sep".data then some 9
  else if l = "oct".data then some 10
  else if l = "nov".data then some 11
  else if l = "dec".data then some 12
  else none

/-- Gregorian leap-year rule, as validated by datetime. -/
def isLeapYear (y : Nat) : Bool :=
  (y % 4 = 0 && y % 100 ≠ 0) || y % 400 = 0

/-- Days in a month of a given year, as validated by datetime. -/
def daysInMonth (y m : Nat) : Nat :=
  if m = 2 then (if isLeapYear y then 29 else 28)
  else if m = 4 || m = 6 || m = 9 || m = 11 then 30
  else 31

/-- Python datetime.strptime(s, "%d-%b-%Y"): a 1-2 digit day, a dash, a month
abbreviation, a dash, a 1-4 digit year; the resulting date must be a valid
Gregorian calendar date or a ValueError is raised (here: none). -/
def parseDMonY (s : String) : Option (Nat × Nat × Nat) :=
  match splitOnChar '-' s.data with
  | [ds, ms, ys] =>
    match digitsToNat? ds, monthAbbrevNum ms, digitsToNat? ys with
    | some d, some m, some y =>
      if 1 ≤ ds.length && ds.length ≤ 2 && 1 ≤ ys.length && ys.length ≤ 4 &&
          1 ≤ d && 1 ≤ y && d ≤ daysInMonth y m then
        some (y, m, d)
      else none
    | _, _, _ => none
  | _ => none

/-- The w decimal digits of n, most significant first, zero padded. -/
def padDigits : Nat → Nat → List Nat
  | 0, _ => []
  | w + 1, n => (n / 10 ^ w) % 10 :: padDigits w (n % 10 ^ w)

/-- The character of a decimal digit. -/
def digitChar (n : Nat) : Char := Char.ofNat (48 + n)

/-- Modelled from the spec: DATE_VERSION_PATTERN (the versioning utility,
absent from src/) is the fixed canonical date format YYYYMMDD, zero padded,
chosen so that lexicographic and chronological order coincide. -/
def fmtDateVersion (ymd : Nat × Nat × Nat) : String :=
  String.mk ((padDigits 4 ymd.1 ++ padDigits 2 ymd.2.1 ++ padDigits 2 ymd.2.2).map digitChar)

/-- RxNormData._get_latest_version over the version field of the parsed
version.json body: a missing key (KeyError) or a strptime failure
(ValueError) is caught and re-raised as RemoteDataError; otherwise the date
is reformatted to the canonical version string. -/
def RxNormData.getLatestVersion (versionField : Option String) :
    Except PyError String :=
  match versionField with
  | none => .error .remoteDataError
  | some raw =>
    match parseDMonY raw with
    | none => .error .remoteDataError
    | some ymd => .ok (fmtDateVersion ymd)

/-- What RxNormData._zip_handler did to the filesystem: the files extracted
next to the destination, and whether os.remove was reached on the temporary
download. -/
structure ZipOutcome where
  extracted : List String
  tempRemoved : Bool
  deriving DecidableEq, Repr

/-- RxNormData._zip_handler over the archive's member names: if
rrf/RXNCONSO.RRF is present it is extracted under the destination name and
the temporary file is removed; otherwise RemoteDataError is raised before
the removal line is reached. -/
def RxNormData.zipHandler (zipNames : List String) (outfileName : String) :
    Except PyError Unit × ZipOutcome :=
  if zipNames.contains "rrf/RXNCONSO.RRF" then
    (.ok (), { extracted := [outfileName], tempRemoved := true })
  else
    (.error .remoteDataError, { extracted := [], tempRemoved := false })

/-- Modelled from the spec: download_http (the download utility, absent from
src/) fetches into a temporary path, invokes the handler on it, and on
handler failure discards the temporary file and leaves the destination
untouched.  The result carries the outcome, the files present at the
destination, and whether the temporary file ended up discarded. -/
def downloadHttpWithZipHandler (zipNames : List String) (outfileName : String) :
    Except PyError Unit × List String × Bool :=
  match RxNormData.zipHandler zipNames outfileName with
  | (.ok (), z) => (.ok (), z.extracted, z.tempRemoved)
  | (.error e, _) => (.error e, [], true)

/-- Python datetime.strptime(s, "%Y%m%d"): eight digits forming a valid
calendar date. -/
def parseYmd8 (s : String) : Option (Nat × Nat × Nat) :=
  match s.data with
  | [y1, y2, y3, y4, m1, m2, d1, d2] =>
    if [y1, y2, y3, y4, m1, m2, d1, d2].all Char.isDigit then
      let y := charsToNat [y1, y2, y3, y4]
      let m := charsToNat [m1, m2]
      let d := charsToNat [d1, d2]
      if 1 ≤ y && 1 ≤ m && m ≤ 12 && 1 ≤ d && d ≤ daysInMonth y m then
        some (y, m, d)
      else none
    else none
  | _ => none

/-- RxNormData._download_data: with no UMLS_API_KEY in the environment an
error is logged and RemoteDataError raised before the URL is built or any
network request is made; with a key, the version is reformatted and the
file fetched through download_http with the zip handler. -/
def RxNormData.downloadData (apiKeyEnv : Option String) (version : String)
    (filePath : String) : Except PyError Unit × Trace :=
  match apiKeyEnv with
  | none => (.error .remoteDataError, { errorsLogged := 1 })
  | some _ =>
    match parseYmd8 version with
    | none => (.error .valueError, {})
    | some _ => (.ok (), { networkCalls := 1, downloads := [filePath] })

/-- Strict lexicographic order on digit lists. -/
def lexLtN : List Nat → List Nat → Bool
  | [], [] => false
  | [], _ :: _ => true
  | _ :: _, [] => false
  | a :: as, b :: bs => decide (a < b) || (decide (a = b) && lexLtN as bs)

/-- Strict lexicographic order on character lists, by code point. -/
def lexLtC : List Char → List Char → Bool
  | [], [] => false
  | [], _ :: _ => true
  | _ :: _, [] => false
  | a :: as, b :: bs =>
    decide (a.toNat < b.toNat) || (decide (a = b) && lexLtC as bs)

/-- Strict lexicographic order on strings. -/
def strLt (s t : String) : Bool := lexLtC s.data t.data

/-- Chronological order on (year, month, day) triples. -/
def chronLt (a b : Nat × Nat × Nat) : Prop :=
  a.1 < b.1 ∨ (a.1 = b.1 ∧ (a.2.1 < b.2.1 ∨ (a.2.1 = b.2.1 ∧ a.2.2 < b.2.2)))

theorem padDigits_length (w n : Nat) : (padDigits w n).length = w := by
  induction w generalizing n with
  | zero => rfl
  | succ w ih => simp [padDigits, ih]

theorem padDigits_lt_ten (w n : Nat) : ∀ d ∈ padDigits w n, d < 10 := by
  induction w generalizing n with
  | zero => simp [padDigits]
  | succ w ih =>
    intro d hd
    simp only [padDigits, List.mem_cons] at hd
    rcases hd with h | h
    · subst h; exact Nat.mod_lt _ (by norm_num)
    · exact ih _ d h

theorem base_block_lt (B q1 r1 q2 r2 : Nat) (h1 : r1 < B) (h2 : r2 < B) :
    B * q1 + r1 < B * q2 + r2 ↔ (q1 < q2 ∨ (q1 = q2 ∧ r1 < r2)) := by
  constructor
  · intro h
    rcases Nat.lt_trichotomy q1 q2 with hq | hq | hq
    · exact Or.inl hq
    · subst hq
      exact Or.inr ⟨rfl, (add_lt_add_iff_left (B * q1)).mp h⟩
    · exfalso
      have h4 : B * (q2 + 1) ≤ B * q1 := mul_le_mul_left' hq B
      have h5 : B * q2 + B ≤ B * q1 := by
        rw [Nat.mul_add, Nat.mul_one] at h4; exact h4
      have h6 : B * q1 + r1 < B * q1 + r1 :=
        calc B * q1 + r1 < B * q2 + r2 := h
          _ < B * q2 + B := add_lt_add_left h2 _
          _ ≤ B * q1 := h5
          _ ≤ B * q1 + r1 := Nat.le_add_right _ _
      exact absurd h6 (lt_irrefl _)
  · intro h
    rcases h with hq | ⟨hq, hr⟩
    · calc B * q1 + r1 < B * q1 + B := add_lt_add_left h1 _
        _ = B * (q1 + 1) := by ring
        _ ≤ B * q2 := mul_le_mul_left' hq B
        _ ≤ B * q2 + r2 := Nat.le_add_right _ _
    · subst hq
      exact add_lt_add_left hr _

theorem padDigits_lexLtN (w : Nat) : ∀ a b : Nat, a < 10 ^ w → b < 10 ^ w →
    (lexLtN (padDigits w a) (padDigits w b) = true ↔ a < b) := by
  induction w with
  | zero =>
    intro a b ha hb
    simp only [pow_zero, Nat.lt_one_iff] at ha hb
    subst ha; subst hb
    simp [padDigits, lexLtN]
  | succ w ih =>
    intro a b ha hb
    have hpos : 0 < 10 ^ w := pow_pos (by norm_num) w
    have hda : a / 10 ^ w < 10 := by
      rw [Nat.div_lt_iff_lt_mul hpos]
      calc a < 10 ^ (w + 1) := ha
        _ = 10 * 10 ^ w := by ring
    have hdb : b / 10 ^ w < 10 := by
      rw [Nat.div_lt_iff_lt_mul hpos]
      calc b < 10 ^ (w + 1) := hb
        _ = 10 * 10 ^ w := by ring
    have hra : a % 10 ^ w < 10 ^ w := Nat.mod_lt _ hpos
    have hrb : b % 10 ^ w < 10 ^ w := Nat.mod_lt _ hpos
    simp only [padDigits, lexLtN, Bool.or_eq_true, Bool.and_eq_true,
      decide_eq_true_eq, Nat.mod_eq_of_lt hda, Nat.mod_eq_of_lt hdb,
      ih (a % 10 ^ w) (b % 10 ^ w) hra hrb]
    rw [← base_block_lt (10 ^ w) (a / 10 ^ w) (a % 10 ^ w) (b / 10 ^ w)
        (b % 10 ^ w) hra hrb, Nat.div_add_mod, Nat.div_add_mod]

theorem padDigits_inj (w : Nat) : ∀ a b : Nat, a < 10 ^ w → b < 10 ^ w →
    (padDigits w a = padDigits w b ↔ a = b) := by
  induction w with
  | zero =>
    intro a b ha hb
    simp only [pow_zero, Nat.lt_one_iff] at ha hb
    subst ha; subst hb
    simp
  | succ w ih =>
    intro a b ha hb
    have hpos : 0 < 10 ^ w := pow_pos (by norm_num) w
    have hda : a / 10 ^ w < 10 := by
      rw [Nat.div_lt_iff_lt_mul hpos]
      calc a < 10 ^ (w + 1) := ha
        _ = 10 * 10 ^ w := by ring
    have hdb : b / 10 ^ w < 10 := by
      rw [Nat.div_lt_iff_lt_mul hpos]
      calc b < 10 ^ (w + 1) := hb
        _ = 10 * 10 ^ w := by ring
    have hra : a % 10 ^ w < 10 ^ w := Nat.mod_lt _ hpos
    have hrb : b % 10 ^ w < 10 ^ w := Nat.mod_lt _ hpos
    simp only [padDigits, List.cons.injEq, Nat.mod_eq_of_lt hda,
      Nat.mod_eq_of_lt hdb, ih (a % 10 ^ w) (b % 10 ^ w) hra hrb]
    constructor
    · rintro ⟨hq, hr⟩
      conv_lhs => rw [← Nat.div_add_mod a (10 ^ w)]
      conv_rhs => rw [← Nat.div_add_mod b (10 ^ w)]
      rw [hq, hr]
    · intro h
      subst h
      exact ⟨rfl, rfl⟩

theorem lexLtN_append : ∀ (xs xs' ys ys' : List Nat), xs.length = xs'.length →
    (lexLtN (xs ++ ys) (xs' ++ ys') = true ↔
      (lexLtN xs xs' = true ∨ (xs = xs' ∧ lexLtN ys ys' = true))) := by
  intro xs
  induction xs with
  | nil =>
    intro xs' ys ys' h
    have hx : xs' = [] := List.length_eq_zero.mp h.symm
    subst hx
    simp [lexLtN]
  | cons x xs ih =>
    intro xs' ys ys' h
    cases xs' with
    | nil => simp at h
    | cons x' xs' =>
      have h' : xs.length = xs'.length := by simpa using h
      have ihr := ih xs' ys ys' h'
      simp only [List.cons_append, lexLtN, Bool.or_eq_true, Bool.and_eq_true,
        decide_eq_true_eq, List.cons.injEq, List.append_eq] at ihr ⊢
      tauto

theorem digitChar_toNat (n : Nat) (h : n < 10) : (digitChar n).toNat = 48 + n := by
  interval_cases n <;> decide

theorem digitChar_inj (a b : Nat) (ha : a < 10) (hb : b < 10) :
    (digitChar a = digitChar b ↔ a = b) := by
  interval_cases a <;> interval_cases b <;> decide

theorem lexLtC_map_digitChar : ∀ ds es : List Nat, (∀ d ∈ ds, d < 10) →
    (∀ d ∈ es, d < 10) →
    (lexLtC (ds.map digitChar) (es.map digitChar) = true ↔ lexLtN ds es = true)
  | [], [], _, _ => by simp [lexLtC, lexLtN]
  | [], _ :: _, _, _ => by simp [lexLtC, lexLtN]
  | _ :: _, [], _, _ => by simp [lexLtC, lexLtN]
  | d :: ds, e :: es, hd, he => by
    have hd0 : d < 10 := hd d (by simp)
    have he0 : e < 10 := he e (by simp)
    have ihr := lexLtC_map_digitChar ds es
      (fun x hx => hd x (by simp [hx])) (fun x hx => he x (by simp [hx]))
    simp only [List.map_cons, lexLtC, lexLtN, Bool.or_eq_true, Bool.and_eq_true,
      decide_eq_true_eq]
    rw [digitChar_toNat d hd0, digitChar_toNat e he0,
      Nat.add_lt_add_iff_left, digitChar_inj d e hd0 he0, ihr]

theorem fmtDateVersion_chron (y1 m1 d1 y2 m2 d2 : Nat)
    (hy1 : y1 < 10 ^ 4) (hy2 : y2 < 10 ^ 4) (hm1 : m1 < 10 ^ 2)
    (hm2 : m2 < 10 ^ 2) (hd1 : d1 < 10 ^ 2) (hd2 : d2 < 10 ^ 2) :
    (strLt (fmtDateVersion (y1, m1, d1)) (fmtDateVersion (y2, m2, d2)) = true ↔
      chronLt (y1, m1, d1) (y2, m2, d2)) := by
  have hall1 : ∀ d ∈ padDigits 4 y1 ++ (padDigits 2 m1 ++ padDigits 2 d1),
      d < 10 := by
    intro d hd
    simp only [List.mem_append] at hd
    rcases hd with h | h | h
    · exact padDigits_lt_ten 4 y1 d h
    · exact padDigits_lt_ten 2 m1 d h
    · exact padDigits_lt_ten 2 d1 d h
  have hall2 : ∀ d ∈ padDigits 4 y2 ++ (padDigits 2 m2 ++ padDigits 2 d2),
      d < 10 := by
    intro d hd
    simp only [List.mem_append] at hd
    rcases hd with h | h | h
    · exact padDigits_lt_ten 4 y2 d h
    · exact padDigits_lt_ten 2 m2 d h
    · exact padDigits_lt_ten 2 d2 d h
  show lexLtC
      ((padDigits 4 y1 ++ padDigits 2 m1 ++ padDigits 2 d1).map digitChar)
      ((padDigits 4 y2 ++ padDigits 2 m2 ++ padDigits 2 d2).map digitChar)
      = true ↔ _
  rw [List.append_assoc, List.append_assoc,
    lexLtC_map_digitChar _ _ hall1 hall2,
    lexLtN_append _ _ _ _ (by rw [padDigits_length, padDigits_length]),
    lexLtN_append _ _ _ _ (by rw [padDigits_length, padDigits_length]),
    padDigits_lexLtN 4 y1 y2 hy1 hy2, padDigits_inj 4 y1 y2 hy1 hy2,
    padDigits_lexLtN 2 m1 m2 hm1 hm2, padDigits_inj 2 m1 m2 hm1 hm2,
    padDigits_lexLtN 2 d1 d2 hd1 hd2]
  exact Iff.rfl

/-- C3: for every source and every cache/network state, get_latest with both
from_local and force_refresh set fails immediately with ValueError, before
any local scan or network access is attempted. -/
theorem c3_conflicting_flags (files : List String) (releases : List DBRelease)
    (lines : List String) :
    DrugBankData.get_latest files releases true true =
      (.error .valueError,
       { localScans := 0, networkCalls := 0, downloads := [], warnings := 0,
         errorsLogged := 0 }) ∧
    GToPLigandData.get_latest files lines true true =
      (.error .valueError,
       { localScans := 0, networkCalls := 0, downloads := [], warnings := 0,
         errorsLogged := 0 }) :=
  ⟨rfl, rfl⟩

/-- C4: get_latest with from_local set delegates entirely to the local cache
scan and never contacts the network: an empty cache directory fails with
FileNotFoundError, and a cache holding drugbank_5.1.10.csv returns that path
and version "5.1.10". -/
theorem c4_from_local_scan_only :
    (∀ (files : List String) (releases : List DBRelease),
      (DrugBankData.get_latest files releases true false).2.networkCalls = 0) ∧
    (∀ releases : List DBRelease,
      DrugBankData.get_latest [] releases true false =
        (.error .fileNotFoundError, { localScans := 1 })) ∧
    (∀ releases : List DBRelease,
      DrugBankData.get_latest ["drugbank_5.1.10.csv"] releases true false =
        (.ok ("drugbank_5.1.10.csv", "5.1.10"), { localScans := 1 })) := by
  refine ⟨?_, fun _ => rfl, fun _ => rfl⟩
  intro files releases
  cases h : DrugBankData.getLatestLocalFile files with
  | error e => simp [DrugBankData.get_latest, h]
  | ok p =>
    obtain ⟨f, v⟩ := p
    simp [DrugBankData.get_latest, h]

/-- C5: the local cache scan compares versions component-wise as integers
after splitting on dots, not lexicographically as strings: on versions 1.0,
2.3 and 2.10 it returns the 2.10 file (even though "2.10" precedes "2.3" in
string order), and an empty candidate set fails with FileNotFoundError. -/
theorem c5_numeric_version_comparison :
    DrugBankData.getLatestLocalFile
        ["drugbank_1.0.csv", "drugbank_2.3.csv", "drugbank_2.10.csv"] =
      .ok ("drugbank_2.10.csv", "2.10") ∧
    strLt "2.10" "2.3" = true ∧
    DrugBankData.getLatestLocalFile [] = .error .fileNotFoundError :=
  ⟨rfl, by decide, rfl⟩

/-- C2: with both policy flags clear, when the local file named with the
resolved remote version exists (for DrugBank), or both group member files
exist (for GuideToPharmacology), get_latest returns the cached path(s) and
the resolved version with no download performed. -/
theorem c2_cache_hit_no_download :
    (∀ (files : List String) (releases : List DBRelease) (v u : String),
      DrugBankData.getLatestVersion releases = .ok (v, u) →
      ("drugbank_" ++ v ++ ".csv") ∈ files →
      DrugBankData.get_latest files releases false false =
        (.ok ("drugbank_" ++ v ++ ".csv", v), { networkCalls := 1 })) ∧
    (∀ (files lines : List String) (v : String),
      GToPLigandData.getLatestVersion lines = .ok v →
      ("gtop_ligands_" ++ v ++ ".tsv") ∈ files →
      ("gtop_ligand_id_mapping_" ++ v ++ ".tsv") ∈ files →
      GToPLigandData.get_latest files lines false false =
        (.ok (⟨"gtop_ligands_" ++ v ++ ".tsv",
              "gtop_ligand_id_mapping_" ++ v ++ ".tsv"⟩, v),
         { networkCalls := 1 })) := by
  constructor
  · intro files releases v u hv hex
    simp [DrugBankData.get_latest, hv, hex]
  · intro files lines v hv hl hm
    simp [GToPLigandData.get_latest, hv, hl, hm]

/-- Witness for c2_cache_hit_no_download at concrete cache contents and
remote responses. -/
theorem c2_cache_hit_no_download_witness :
    DrugBankData.get_latest ["drugbank_5.1.10.csv"]
        [⟨some "5.1.10", some "https://go.drugbank.com/releases/5-1-10"⟩] false false =
      (.ok ("drugbank_" ++ "5.1.10" ++ ".csv", "5.1.10"), { networkCalls := 1 }) ∧
    GToPLigandData.get_latest
        ["gtop_ligands_2023.1.tsv", "gtop_ligand_id_mapping_2023.1.tsv"]
        ["Current Release Version 2023.1 (2023-10-01)"] false false =
      (.ok (⟨"gtop_ligands_" ++ "2023.1" ++ ".tsv",
            "gtop_ligand_id_mapping_" ++ "2023.1" ++ ".tsv"⟩, "2023.1"),
       { networkCalls := 1 }) :=
  ⟨c2_cache_hit_no_download.1 _ _ _ _ rfl (by decide),
   c2_cache_hit_no_download.2 _ _ _ rfl (by decide) (by decide)⟩

/-- C1: for the GuideToPharmacology asset group, when the policy is default
and exactly one of the two member files exists for the resolved remote
version, get_latest logs one warning and no error, downloads both members in
full, and returns the freshly downloaded pair rather than the single present
file. -/
theorem c1_partial_group_full_refetch (files lines : List String) (v : String)
    (hv : GToPLigandData.getLatestVersion lines = .ok v)
    (honly :
      (("gtop_ligands_" ++ v ++ ".tsv") ∈ files ∧
        ("gtop_ligand_id_mapping_" ++ v ++ ".tsv") ∉ files) ∨
      (("gtop_ligands_" ++ v ++ ".tsv") ∉ files ∧
        ("gtop_ligand_id_mapping_" ++ v ++ ".tsv") ∈ files)) :
    GToPLigandData.get_latest files lines false false =
      (.ok (⟨"gtop_ligands_" ++ v ++ ".tsv",
            "gtop_ligand_id_mapping_" ++ v ++ ".tsv"⟩, v),
       { networkCalls := 3,
         downloads := ["gtop_ligands_" ++ v ++ ".tsv",
           "gtop_ligand_id_mapping_" ++ v ++ ".tsv"],
         warnings := 1, errorsLogged := 0 }) := by
  rcases honly with ⟨hl, hm⟩ | ⟨hl, hm⟩ <;>
    simp [GToPLigandData.get_latest, hv, hl, hm]

/-- Witness for c1_partial_group_full_refetch: only the ligands file is
present for the resolved version 2023.1. -/
theorem c1_partial_group_full_refetch_witness :
    GToPLigandData.get_latest ["gtop_ligands_2023.1.tsv"]
        ["Current Release Version 2023.1 (2024-05-27)"] false false =
      (.ok (⟨"gtop_ligands_" ++ "2023.1" ++ ".tsv",
            "gtop_ligand_id_mapping_" ++ "2023.1" ++ ".tsv"⟩, "2023.1"),
       { networkCalls := 3,
         downloads := ["gtop_ligands_" ++ "2023.1" ++ ".tsv",
           "gtop_ligand_id_mapping_" ++ "2023.1" ++ ".tsv"],
         warnings := 1, errorsLogged := 0 }) :=
  c1_partial_group_full_refetch _ _ _ rfl (by decide)

/-- C6: a remote-version strategy response with no usable identifier (empty
release array, missing JSON key, or unmatched homepage pattern) yields
RemoteDataError, and get_latest then surfaces that error with no download
performed and no fallback to a cached version. -/
theorem c6_unparsable_remote_version :
    (∀ (files : List String) (releases : List DBRelease) (fr : Bool) (e : PyError),
      DrugBankData.getLatestVersion releases = .error e →
      DrugBankData.get_latest files releases false fr =
        (.error e, { networkCalls := 1 })) ∧
    (∀ (files lines : List String) (fr : Bool) (e : PyError),
      GToPLigandData.getLatestVersion lines = .error e →
      GToPLigandData.get_latest files lines false fr =
        (.error e, { networkCalls := 1 })) ∧
    DrugBankData.getLatestVersion [] = .error .remoteDataError ∧
    DrugBankData.getLatestVersion [⟨none, some "url"⟩] = .error .remoteDataError ∧
    GToPLigandData.getLatestVersion ["<html>", "no version here"] =
      .error .remoteDataError := by
  refine ⟨?_, ?_, rfl, rfl, rfl⟩
  · intro files releases fr e hv
    simp [DrugBankData.get_latest, hv]
  · intro files lines fr e hv
    simp [GToPLigandData.get_latest, hv]

/-- Witness for c6_unparsable_remote_version at concrete unusable responses. -/
theorem c6_unparsable_remote_version_witness :
    DrugBankData.get_latest [] [] false false =
      (.error .remoteDataError, { networkCalls := 1 }) ∧
    GToPLigandData.get_latest [] ["<html>"] false false =
      (.error .remoteDataError, { networkCalls := 1 }) :=
  ⟨c6_unparsable_remote_version.1 [] [] false .remoteDataError rfl,
   c6_unparsable_remote_version.2.1 [] ["<html>"] false .remoteDataError rfl⟩

/-- C7 counterexample: on an archive without the expected member, the
RxNorm post-processing step raises RemoteDataError, which is not the spec's
distinct ProcessingError kind, and its own temporary-file removal line is
never reached. -/
theorem c7_counterexample_error_kind :
    (RxNormData.zipHandler ["rrf/other.RRF", "readme.txt"]
        "rxnorm_20230101.RRF").1 = .error .remoteDataError ∧
    PyError.remoteDataError ≠ PyError.processingError ∧
    (RxNormData.zipHandler ["rrf/other.RRF", "readme.txt"]
        "rxnorm_20230101.RRF").2.tempRemoved = false :=
  ⟨rfl, by decide, rfl⟩

/-- C7 amended: when the expected member is absent from the archive the
download fails with RemoteDataError, nothing is extracted at the destination
(so it never references a nonexistent extraction target), and the temporary
download is discarded by the downloader. -/
theorem c7_missing_member_discards (zipNames : List String) (outName : String)
    (h : "rrf/RXNCONSO.RRF" ∉ zipNames) :
    downloadHttpWithZipHandler zipNames outName =
      (.error .remoteDataError, [], true) := by
  simp [downloadHttpWithZipHandler, RxNormData.zipHandler, h]

/-- Witness for c7_missing_member_discards at a concrete archive listing. -/
theorem c7_missing_member_discards_witness :
    "rrf/RXNCONSO.RRF" ∉ (["rrf/other.RRF", "readme.txt"] : List String) ∧
    downloadHttpWithZipHandler ["rrf/other.RRF", "readme.txt"]
        "rxnorm_20230101.RRF" = (.error .remoteDataError, [], true) :=
  ⟨by decide, c7_missing_member_discards _ _ (by decide)⟩

/-- C9: under from_local the two GuideToPharmacology member paths are chosen
independently, one per glob, and the version is parsed from the ligands
filename alone, so locally newest member files carrying different versions
are returned together as a non-co-versioned pair labeled with the ligands
file's version. -/
theorem c9_local_members_independent :
    GToPLigandData.get_latest
        ["gtop_ligands_2023.1.tsv", "gtop_ligand_id_mapping_2022.5.tsv"]
        [] true false =
      (.ok (⟨"gtop_ligands_2023.1.tsv", "gtop_ligand_id_mapping_2022.5.tsv"⟩,
            "2023.1"),
       { localScans := 2 }) ∧
    parseGtopLigandsVersion "gtop_ligands_2023.1.tsv" = some "2023.1" ∧
    "gtop_ligand_id_mapping_2022.5.tsv" =
      "gtop_ligand_id_mapping_" ++ "2022.5" ++ ".tsv" ∧
    ("2022.5" : String) ≠ "2023.1" :=
  ⟨rfl, rfl, by decide, by decide⟩

/-- C8: the RxNorm resolver normalizes remote date identifiers to the fixed
canonical format YYYYMMDD, on which lexicographic string order coincides with
chronological order for all in-range dates, and a malformed or missing date
fails with RemoteDataError rather than silently defaulting. -/
theorem c8_canonical_date_versions :
    (∀ y1 m1 d1 y2 m2 d2 : Nat, y1 ≤ 9999 → y2 ≤ 9999 → m1 ≤ 12 → m2 ≤ 12 →
      d1 ≤ 31 → d2 ≤ 31 →
      (strLt (fmtDateVersion (y1, m1, d1)) (fmtDateVersion (y2, m2, d2)) = true ↔
        chronLt (y1, m1, d1) (y2, m2, d2))) ∧
    RxNormData.getLatestVersion (some "04-Jan-2023") = .ok "20230104" ∧
    RxNormData.getLatestVersion (some "2023-01-04") = .error .remoteDataError ∧
    RxNormData.getLatestVersion (some "31-Feb-2023") = .error .remoteDataError ∧
    RxNormData.getLatestVersion none = .error .remoteDataError := by
  refine ⟨?_, rfl, rfl, rfl, rfl⟩
  intro y1 m1 d1 y2 m2 d2 hy1 hy2 hm1 hm2 hd1 hd2
  have e4 : (10 : Nat) ^ 4 = 10000 := by norm_num
  have e2 : (10 : Nat) ^ 2 = 100 := by norm_num
  exact fmtDateVersion_chron y1 m1 d1 y2 m2 d2 (by omega) (by omega) (by omega)
    (by omega) (by omega) (by omega)

/-- Witness for c8_canonical_date_versions: December 31 2022 against
January 4 2023, together with a concrete evaluation of the canonical
formatting. -/
theorem c8_canonical_date_versions_witness :
    fmtDateVersion (2023, 1, 4) = "20230104" ∧
    (strLt (fmtDateVersion (2022, 12, 31)) (fmtDateVersion (2023, 1, 4)) = true ↔
      chronLt (2022, 12, 31) (2023, 1, 4)) :=
  ⟨rfl, c8_canonical_date_versions.1 2022 12 31 2023 1 4 (by decide) (by decide)
    (by decide) (by decide) (by decide) (by decide)⟩

/-- C10: with UMLS_API_KEY absent from the environment, RxNorm's download
step logs an error and fails with RemoteDataError before building the
download URL or touching the network, so no fetch and no file write occur. -/
theorem c10_missing_api_key (version filePath : String) :
    RxNormData.downloadData none version filePath =
      (.error .remoteDataError,
       { localScans := 0, networkCalls := 0, downloads := [], warnings := 0,
         errorsLogged := 1 }) :=
  rfl
